import Mathlib

/-!
Verification of avibot's `data_manager` core
(`bot/avibot/core/data_manager/sqltypes.py` and
`bot/avibot/core/data_manager/db.py`).

The Python classes are embedded shallowly:
* each `SQLType` subclass becomes a constructor of the inductive `SQLType`,
  holding exactly the instance attributes its `__init__` assigns;
* each `__init__` that can raise `SchemaError` becomes a function returning
  `Except PyError SQLType` (a raise inside `__init__` means no instance is
  produced, so the attribute assignments made before the raise are invisible);
* `to_dict` / `from_dict` / `__eq__` work on `self.__dict__`, so instances are
  also reflected as Python objects (`PyVal.vObj`: class name plus attribute
  dictionary) and the dictionary-level operations are modelled on those;
* `db.py`'s `DatabaseManager` becomes a state record; the awaited effects on
  the pool and on connections are recorded as an emitted list of `PoolAction`s,
  and a call that raises returns `Except.error`.
-/

/-- The exceptions the modelled code can raise: `SchemaError` from
`sqltypes.py`, and the `TypeError` / `ValueError` that CPython raises inside
`db.py`'s listener bookkeeping. -/
inductive PyError where
  | schemaError (msg : String)
  | typeError (msg : String)
  | valueError (msg : String)
  deriving DecidableEq, Repr

/-- One constructor per concrete `SQLType` subclass of `sqltypes.py`; the
fields are exactly the instance attributes assigned in each `__init__`
(classes with no `__init__` have no instance attributes). -/
inductive SQLType where
  | BooleanSQL
  | DateSQL
  | DatetimeSQL (timezone : Bool)
  | DoubleSQL
  | FloatSQL
  | IntegerSQL (big small auto_increment : Bool)
  | IntervalSQL (field : Option String)
  | DecimalSQL (precision scale : Option Int)
  | StringSQL
  | TimeSQL (timezone : Bool)
  | JSONSQL
  | ArraySQL (type : SQLType) (size : Option Int)
  deriving DecidableEq, Repr

/-- `DatetimeSQL.__init__(self, *, timezone=False)`: assigns and never raises. -/
def datetimeSQLInit (timezone : Bool) : SQLType := .DatetimeSQL timezone

/-- `TimeSQL.__init__(self, *, timezone=False)`: assigns and never raises. -/
def timeSQLInit (timezone : Bool) : SQLType := .TimeSQL timezone

/-- `IntegerSQL.__init__`: assigns `big`, `small`, `auto_increment`, then
raises `SchemaError` when both `big` and `small` are set. -/
def integerSQLInit (big small auto_increment : Bool) : Except PyError SQLType :=
  if big && small then
    .error (.schemaError "Integer column type cannot be both big and small.")
  else
    .ok (.IntegerSQL big small auto_increment)

/-- Python's `str.upper()` on the ASCII strings that occur here: uppercase
every character.  (Lean's `String.toUpper` computes the same string but
through a byte-position accumulator that does not reduce definitionally, so
it cannot be evaluated by `decide`.) -/
def pyUpper (s : String) : String := ⟨s.data.map Char.toUpper⟩

/-- `IntervalSQL.valid_fields`, in source order. -/
def validFields : List String :=
  ["YEAR", "MONTH", "DAY", "HOUR", "MINUTE", "SECOND", "YEAR TO MONTH",
   "DAY TO HOUR", "DAY TO MINUTE", "DAY TO SECOND", "HOUR TO MINUTE",
   "HOUR TO SECOND", "MINUTE TO SECOND"]

/-- `IntervalSQL.__init__(self, field=None)`: `if field:` is Python truthiness,
so both `None` and the empty string take the `else` branch and store
`self.field = None`; a truthy field is upper-cased and checked against
`valid_fields`. -/
def intervalSQLInit (field : Option String) : Except PyError SQLType :=
  match field with
  | some s =>
    if s = "" then .ok (.IntervalSQL none)
    else
      if validFields.contains (pyUpper s) then .ok (.IntervalSQL (some (pyUpper s)))
      else .error (.schemaError "invalid interval specified")
  | none => .ok (.IntervalSQL none)

/-- `DecimalSQL.__init__(self, *, precision=None, scale=None)`: when a
precision is given it must lie in `[0, 1000]` and a missing scale defaults to
`0`; without a precision the scale is stored as passed. -/
def decimalSQLInit (precision scale : Option Int) : Except PyError SQLType :=
  match precision with
  | some p =>
    if p < 0 ∨ p > 1000 then
      .error (.schemaError "precision must be greater than 0 and below 1000")
    else
      .ok (.DecimalSQL (some p) (some (scale.getD 0)))
  | none => .ok (.DecimalSQL none scale)

/-- `ArraySQL.__init__(self, inner_type, size=None)`: the `isinstance`
check always passes here because the embedding types `inner_type` as
`SQLType`; the attributes are stored unchanged. -/
def arraySQLInit (inner_type : SQLType) (size : Option Int) :
    Except PyError SQLType :=
  .ok (.ArraySQL inner_type size)

/-- Render an optional int the way CPython's f-string does (`None` for an
absent value): only reachable in `to_sql` for a `DecimalSQL` built by
`from_dict` with a precision but no scale. -/
def pyIntStr : Option Int → String
  | some n => toString n
  | none => "None"

/-- `to_sql` of every variant, translated arm by arm; `if self.size:` and
`if self.field:` are Python truthiness tests (`0`, `""` and `None` are
falsy). -/
def SQLType.to_sql : SQLType → String
  | .BooleanSQL => "BOOLEAN"
  | .DateSQL => "DATE"
  | .DatetimeSQL tz => if tz then "TIMESTAMP WITH TIMEZONE" else "TIMESTAMP"
  | .DoubleSQL => "REAL"
  | .FloatSQL => "FLOAT"
  | .IntegerSQL big small auto =>
    if auto then
      if big then "BIGSERIAL" else if small then "SMALLSERIAL" else "SERIAL"
    else
      if big then "BIGINT" else if small then "SMALLINT" else "INTEGER"
  | .IntervalSQL f =>
    match f with
    | some s => if s = "" then "INTERVAL" else "INTERVAL " ++ s
    | none => "INTERVAL"
  | .DecimalSQL p s =>
    match p with
    | some n => "NUMERIC(" ++ toString n ++ ", " ++ pyIntStr s ++ ")"
    | none => "NUMERIC"
  | .StringSQL => "TEXT"
  | .TimeSQL tz => if tz then "TIME WITH TIME ZONE" else "TIME"
  | .JSONSQL => "JSONB"
  | .ArraySQL t sz =>
    match sz with
    | some n =>
      if n = 0 then t.to_sql ++ "[]"
      else t.to_sql ++ "[" ++ toString n ++ "]"
    | none => t.to_sql ++ "[]"

/-- `is_real_type`: the base class returns `True`; `IntegerSQL` overrides it
and returns `not self.auto_increment` when `auto_increment` is set. -/
def SQLType.is_real_type : SQLType → Bool
  | .IntegerSQL _ _ auto => if auto then !auto else true
  | _ => true

/-- A Python value as it appears in an `SQLType` instance's `__dict__`:
booleans, ints, strings, `None`, and nested objects (an `ArraySQL` stores its
inner `SQLType` instance).  An object is its class name together with its
attribute dictionary, kept as an association list in insertion order. -/
inductive PyVal where
  | vBool (b : Bool)
  | vInt (n : Int)
  | vStr (s : String)
  | vNone
  | vObj (cls : String) (dict : List (String × PyVal))
  deriving Repr

/-- An optional int attribute as stored in `__dict__`. -/
def optIntVal : Option Int → PyVal
  | some n => .vInt n
  | none => .vNone

/-- An optional string attribute as stored in `__dict__`. -/
def optStrVal : Option String → PyVal
  | some s => .vStr s
  | none => .vNone

/-- `type(x).__qualname__` for each variant. -/
def SQLType.clsName : SQLType → String
  | .BooleanSQL => "BooleanSQL"
  | .DateSQL => "DateSQL"
  | .DatetimeSQL _ => "DatetimeSQL"
  | .DoubleSQL => "DoubleSQL"
  | .FloatSQL => "FloatSQL"
  | .IntegerSQL _ _ _ => "IntegerSQL"
  | .IntervalSQL _ => "IntervalSQL"
  | .DecimalSQL _ _ => "DecimalSQL"
  | .StringSQL => "StringSQL"
  | .TimeSQL _ => "TimeSQL"
  | .JSONSQL => "JSONSQL"
  | .ArraySQL _ _ => "ArraySQL"

/-- `self.__dict__` of a constructor-built instance: exactly the attributes
each `__init__` assigns, in assignment order (class attributes such as
`python` and `valid_fields` live on the class, not in the instance dict). -/
def SQLType.instDict : SQLType → List (String × PyVal)
  | .BooleanSQL => []
  | .DateSQL => []
  | .DatetimeSQL tz => [("timezone", .vBool tz)]
  | .DoubleSQL => []
  | .FloatSQL => []
  | .IntegerSQL b s a =>
    [("big", .vBool b), ("small", .vBool s), ("auto_increment", .vBool a)]
  | .IntervalSQL f => [("field", optStrVal f)]
  | .DecimalSQL p s => [("precision", optIntVal p), ("scale", optIntVal s)]
  | .StringSQL => []
  | .TimeSQL tz => [("timezone", .vBool tz)]
  | .JSONSQL => []
  | .ArraySQL t sz =>
    [("type", .vObj t.clsName t.instDict), ("size", optIntVal sz)]

/-- A constructor-built instance seen as a Python object. -/
def toObj (x : SQLType) : PyVal := .vObj x.clsName x.instDict

/-- `cls.__module__ + "." + cls.__qualname__`, the value `to_dict` stores
under the reserved `__meta__` key. -/
def SQLType.metaTag (x : SQLType) : String :=
  "avibot.core.data_manager.sqltypes." ++ x.clsName

/-- `SQLType.to_dict`: a copy of `self.__dict__` with the `__meta__` entry
appended (dict insertion order puts the new key last). -/
def SQLType.to_dict (x : SQLType) : List (String × PyVal) :=
  x.instDict ++ [("__meta__", .vStr x.metaTag)]

/-- `SQLType.from_dict`: `cls.__new__(cls)` makes an instance with an empty
`__dict__`, then `self.__dict__.update(data)` copies every entry of `data` in
— the `__meta__` key included, since nothing removes it. -/
def from_dict (cls : String) (data : List (String × PyVal)) : PyVal :=
  .vObj cls data

mutual

/-- Python `==` on the values that occur here, `SQLType.__eq__` included:
`isinstance(other, self.__class__)` is a class-name comparison (every variant
is a leaf class), and `self.__dict__ == other.__dict__` is CPython dict
equality — equal sizes, then every entry of the left dict looked up and
compared in the right one.  Attributes of the same name always hold values of
the same shape, so the primitive cross-type cases never arise and are mapped
to `false`. -/
def pyEq : PyVal → PyVal → Bool
  | .vBool a, .vBool b => a == b
  | .vInt a, .vInt b => a == b
  | .vStr a, .vStr b => a == b
  | .vNone, .vNone => true
  | .vObj c1 d1, .vObj c2 d2 =>
    c1 == c2 && d1.length == d2.length && dictIncl d1 d2
  | _, _ => false

/-- Every entry of the first dict occurs, with a `pyEq`-equal value, in the
second. -/
def dictIncl : List (String × PyVal) → List (String × PyVal) → Bool
  | [], _ => true
  | (k, v) :: rest, d => lookupBeq k v d && dictIncl rest d

/-- The key `k` is present in the dict with a value `pyEq`-equal to `v`. -/
def lookupBeq : String → PyVal → List (String × PyVal) → Bool
  | _, _, [] => false
  | k, v, (k2, v2) :: rest => if k = k2 then pyEq v v2 else lookupBeq k v rest

end

/-- A listener pair `(channel name, callback)`; Python compares callbacks by
object identity inside tuples, modelled as an id. -/
abbrev Listener := String × Nat

/-- What the `listeners` attribute is bound to.  `__init__` assigns
`List[asyncpg.pool.PoolConnectionProxy]` — the typing generic alias object
itself, not a list instance. -/
inductive ListenersAttr where
  | genericAlias
  | pylist (l : List Listener)
  deriving DecidableEq, Repr

/-- The awaited calls the manager makes on its pool and connections, in
program order. -/
inductive PoolAction where
  | release (conn : Nat)
  | closePool (pool : Nat)
  | terminate (pool : Nat)
  | addListener (p : Listener)
  | removeListener (p : Listener)
  deriving DecidableEq, Repr

/-- The mutable state of a `DatabaseManager`: the pool handle, the dedicated
listener connection, and the `listeners` attribute.  The dsn and loop never
change after `__init__` and no claim touches them. -/
structure DatabaseManager where
  pool : Option Nat
  listener_conn : Option Nat
  listeners : ListenersAttr
  deriving DecidableEq, Repr

/-- The state `DatabaseManager.__init__` leaves: `self.pool = None`,
`self.listener_conn = None`, `self.listeners = List[...]` (the alias). -/
def initManager : DatabaseManager :=
  { pool := none, listener_conn := none, listeners := .genericAlias }

/-- `DatabaseManager.close`: everything is guarded by `if self.pool:`, the
release also by `if self.listener_conn:`; a manager whose pool was never
created does nothing and raises nothing. -/
def DatabaseManager.close (st : DatabaseManager) :
    DatabaseManager × List PoolAction :=
  match st.pool with
  | none => (st, [])
  | some p =>
    match st.listener_conn with
    | some c => (st, [.release c, .closePool p, .terminate p])
    | none => (st, [.closePool p, .terminate p])

/-- `DatabaseManager.add_conn_listeners`.  While `listeners` is still the
generic alias the call raises `TypeError`: a non-empty argument list already
fails the membership test `lst not in self.listeners` (the alias is not a
container), and even an empty one fails at `self.listeners.extend(...)`
(the attribute resolves to the unbound `list.extend`, called with the wrong
self).  On a real list: one filter pass against the pre-call list, append,
then register each genuinely new pair when a listener connection exists. -/
def DatabaseManager.add_conn_listeners (st : DatabaseManager)
    (args : List Listener) :
    Except PyError (DatabaseManager × List PoolAction) :=
  match st.listeners with
  | .genericAlias =>
    .error (.typeError "argument of type _GenericAlias is not iterable")
  | .pylist l =>
    let add := args.filter (fun p => !(l.contains p))
    let acts := match st.listener_conn with
      | some _ => add.map PoolAction.addListener
      | none => []
    .ok ({ st with listeners := .pylist (l ++ add) }, acts)

/-- The loop body of `remove_listeners`: for each pair of the pre-computed
filter result, `self.listeners.remove(listener)` (first occurrence; raises
`ValueError` when the pair is gone, which duplicated arguments can cause)
and then the deregistration call when a connection exists. -/
def removeLoop (conn : Option Nat) :
    List Listener → List Listener →
    Except PyError (List Listener × List PoolAction)
  | [], l => .ok (l, [])
  | p :: rest, l =>
    if l.contains p then
      match removeLoop conn rest (l.erase p) with
      | .ok (l2, acts) =>
        .ok (l2, (match conn with
          | some _ => [PoolAction.removeListener p]
          | none => []) ++ acts)
      | .error e => .error e
    else
      .error (.valueError "list.remove(x): x not in list")

/-- `DatabaseManager.remove_listeners`.  With the generic alias still in
place, an empty argument list returns without ever touching the attribute
(the comprehension iterates nothing), while a non-empty one raises
`TypeError` at the membership test.  On a real list: one filter pass against
the pre-call list, then remove and deregister pair by pair. -/
def DatabaseManager.remove_listeners (st : DatabaseManager)
    (args : List Listener) :
    Except PyError (DatabaseManager × List PoolAction) :=
  match st.listeners with
  | .genericAlias =>
    if args.isEmpty then .ok (st, [])
    else .error (.typeError "argument of type _GenericAlias is not iterable")
  | .pylist l =>
    let rem := args.filter (fun p => l.contains p)
    match removeLoop st.listener_conn rem l with
    | .ok (l2, acts) => .ok ({ st with listeners := .pylist l2 }, acts)
    | .error e => .error e

/-- One attempt of the `try` body of `execute_query` /
`execute_transaction`, as the database transport resolves it: either the
prepared statement produces rows, or the acquired connection turns out
broken and asyncpg raises `InterfaceError`. -/
inductive AttemptOutcome where
  | ok (rows : List Int)
  | interfaceError (msg : String)
  deriving DecidableEq, Repr

/-- `DatabaseManager.execute_query`, run against the sequence of outcomes the
transport produces for the successive attempts.  An `InterfaceError` is
caught, logged, answered with `recreate_pool()` (counted) and the call
re-enters itself on the remaining outcomes; there is no base case, so when
the sequence is all failures the recursion is still running when the
sequence runs out — result `none`. -/
def execute_query : List AttemptOutcome → Option (List Int × Nat)
  | [] => none
  | .ok rows :: _ => some (rows, 0)
  | .interfaceError _ :: rest =>
    (execute_query rest).map (fun r => (r.1, r.2 + 1))

/-- `DatabaseManager.execute_transaction`: the same `except InterfaceError`
→ log → `recreate_pool()` → recursive self-call shape as `execute_query`,
with the cursor's rows in place of `fetch`'s. -/
def execute_transaction : List AttemptOutcome → Option (List Int × Nat)
  | [] => none
  | .ok rows :: _ => some (rows, 0)
  | .interfaceError _ :: rest =>
    (execute_transaction rest).map (fun r => (r.1, r.2 + 1))

deriving instance DecidableEq for Except

/-- Python `==` on two optional-int attributes agrees with `Option` equality. -/
theorem optIntVal_pyEq (a b : Option Int) :
    pyEq (optIntVal a) (optIntVal b) = true ↔ a = b := by
  cases a <;> cases b <;> simp [optIntVal, pyEq]

/-- Python `==` on two optional-string attributes agrees with `Option`
equality. -/
theorem optStrVal_pyEq (a b : Option String) :
    pyEq (optStrVal a) (optStrVal b) = true ↔ a = b := by
  cases a <;> cases b <;> simp [optStrVal, pyEq]

/-- C7: `SQLType.__eq__` is structural equality: two constructor-built
instances compare equal exactly when they are the same variant with equal
fields — which for the embedding's inductive is propositional equality. -/
theorem sqltype_eq_structural (x y : SQLType) :
    pyEq (toObj x) (toObj y) = true ↔ x = y := by
  induction x generalizing y <;> cases y <;>
    simp_all [toObj, SQLType.clsName, SQLType.instDict, pyEq, dictIncl,
      lookupBeq, optIntVal_pyEq, optStrVal_pyEq]

/-- C1: the dict round-trip fails for every instance.  `from_dict` copies the
whole mapping — the reserved `__meta__` key included — into the new
instance's `__dict__`, so the rebuilt instance has one attribute more than
the original and `__eq__`'s dict comparison returns `False`. -/
theorem from_dict_to_dict_breaks_eq (x : SQLType) :
    pyEq (toObj x) (from_dict x.clsName x.to_dict) = false := by
  cases x <;>
    simp [toObj, from_dict, SQLType.clsName, SQLType.instDict,
      SQLType.to_dict, pyEq]

/-- C2: on a freshly constructed manager both listener calls raise
`TypeError`, because `__init__` bound `self.listeners` to the typing generic
alias `List[asyncpg.pool.PoolConnectionProxy]` instead of a list: no pair is
ever tracked or registered, and removing an untracked pair is not a no-op. -/
theorem listeners_fresh_manager_raises :
    initManager.add_conn_listeners [("updates", 0)] =
      .error (.typeError "argument of type _GenericAlias is not iterable") ∧
    initManager.remove_listeners [("updates", 0)] =
      .error (.typeError "argument of type _GenericAlias is not iterable") := by
  constructor <;> rfl

/-- C3 counterexample: a call of `execute_query` that meets two broken
connections before a good one performs two pool recreations — not exactly
one per call — and a call that meets only broken connections is still
recursing when the outcome sequence (here of length 2) is spent. -/
theorem execute_query_two_recreations :
    execute_query [.interfaceError "connection is closed",
      .interfaceError "connection is closed", .ok [1]] = some ([1], 2) ∧
    execute_query [.interfaceError "connection is closed",
      .interfaceError "connection is closed"] = none ∧ (2 : Nat) ≠ 1 := by
  refine ⟨rfl, rfl, by decide⟩

/-- C3 as amended: each transport failure triggers one recreation and one
recursive retry, with no bound — after `n` failures and a success the call
returns the rows having recreated the pool `n` times, and on an all-failure
outcome sequence it has still not terminated when the sequence runs out;
`execute_transaction` behaves identically. -/
theorem execute_retry_per_failure (n : Nat) (rows : List Int) (msg : String) :
    execute_query (List.replicate n (.interfaceError msg) ++ [.ok rows]) =
      some (rows, n) ∧
    execute_transaction (List.replicate n (.interfaceError msg) ++ [.ok rows]) =
      some (rows, n) ∧
    execute_query (List.replicate n (.interfaceError msg)) = none := by
  induction n with
  | zero => simp [execute_query, execute_transaction]
  | succ k ih =>
    simp [List.replicate_succ, execute_query, execute_transaction,
      ih.1, ih.2.1, ih.2.2]

/-- C4: `close()` on a manager whose pool was never created (`self.pool`
still `None`) changes nothing, awaits nothing and raises nothing. -/
theorem close_never_started (st : DatabaseManager) (h : st.pool = none) :
    st.close = (st, []) := by
  simp [DatabaseManager.close, h]

/-- C4 witness: the freshly constructed manager. -/
theorem close_never_started_witness : initManager.close = (initManager, []) :=
  close_never_started initManager rfl

/-- C5: `IntegerSQL` construction raises `SchemaError` whenever both `big`
and `small` are set, whatever `auto_increment` is, and succeeds (producing
the instance with the given flags) whenever at most one of them is set. -/
theorem integer_big_small (a b s : Bool) (h : (b && s) = false) :
    integerSQLInit true true a =
      .error (.schemaError "Integer column type cannot be both big and small.") ∧
    integerSQLInit b s a = .ok (.IntegerSQL b s a) := by
  constructor
  · simp [integerSQLInit]
  · simp [integerSQLInit, h]

/-- C5 witness: `auto_increment=false`, and the one-flag instance `big`. -/
theorem integer_big_small_witness :
    integerSQLInit true true false =
      .error (.schemaError "Integer column type cannot be both big and small.") ∧
    integerSQLInit true false false = .ok (.IntegerSQL true false false) :=
  integer_big_small false true false (by decide)

/-- C6: `DecimalSQL` construction fails with `SchemaError` for any precision
outside `[0, 1000]`, succeeds with the scale defaulted to `0` for any
precision inside it when no scale is given, renders `NUMERIC(10, 0)` for
precision 10, and `NUMERIC` with no precision. -/
theorem decimal_precision_bounds (p : Int) (s : Option Int) (q : Int)
    (h1 : p < 0 ∨ p > 1000) (h2 : 0 ≤ q ∧ q ≤ 1000) :
    decimalSQLInit (some p) s =
      .error (.schemaError "precision must be greater than 0 and below 1000") ∧
    decimalSQLInit (some q) none = .ok (.DecimalSQL (some q) (some 0)) ∧
    (decimalSQLInit (some 10) none).map SQLType.to_sql = .ok "NUMERIC(10, 0)" ∧
    (decimalSQLInit none none).map SQLType.to_sql = .ok "NUMERIC" := by
  refine ⟨?_, ?_, by decide, by decide⟩
  · simp [decimalSQLInit, h1]
  · simp [decimalSQLInit]; omega

/-- C6 witness: precision `-1` out of range, precision `10` in range. -/
theorem decimal_precision_bounds_witness :
    decimalSQLInit (some (-1)) none =
      .error (.schemaError "precision must be greater than 0 and below 1000") ∧
    decimalSQLInit (some 10) none = .ok (.DecimalSQL (some 10) (some 0)) ∧
    (decimalSQLInit (some 10) none).map SQLType.to_sql = .ok "NUMERIC(10, 0)" ∧
    (decimalSQLInit none none).map SQLType.to_sql = .ok "NUMERIC" :=
  decimal_precision_bounds (-1) none 10 (by decide) (by decide)

/-- C8 counterexample: the empty string is a field specifier whose
upper-cased form is not among the 13 recognized ones, yet construction does
not raise `SchemaError` — `if field:` is falsy on `""`, so validation is
skipped and the instance stores `None`. -/
theorem interval_empty_field_accepted :
    intervalSQLInit (some "") = .ok (.IntervalSQL none) ∧
    validFields.contains (pyUpper "") = false := by
  decide

/-- C8 as amended: a *non-empty* field specifier is accepted, normalized to
upper case, exactly when its normalization is among the 13 recognized
specifiers, and raises `SchemaError` otherwise; `"day to hour"` succeeds and
renders `INTERVAL DAY TO HOUR`, `"bogus"` fails.  (An empty or absent field
is treated as no field at all.) -/
theorem interval_field_normalized (s : String) (h : s ≠ "") :
    (intervalSQLInit (some s) = .ok (.IntervalSQL (some (pyUpper s))) ↔
      pyUpper s ∈ validFields) ∧
    (intervalSQLInit (some s) =
        .error (.schemaError "invalid interval specified") ↔
      pyUpper s ∉ validFields) ∧
    (intervalSQLInit (some "day to hour")).map SQLType.to_sql =
      .ok "INTERVAL DAY TO HOUR" ∧
    intervalSQLInit (some "bogus") =
      .error (.schemaError "invalid interval specified") := by
  refine ⟨?_, ?_, by decide, by decide⟩ <;>
    by_cases hc : pyUpper s ∈ validFields <;>
      simp [intervalSQLInit, if_neg h, hc]

/-- C8 witness: the lower-case specifier `"month"` is accepted and stored
upper-cased. -/
theorem interval_field_normalized_witness :
    intervalSQLInit (some "month") = .ok (.IntervalSQL (some (pyUpper "month"))) :=
  (interval_field_normalized "month" (by decide)).1.mpr (by decide)

/-- C9: an `ArraySQL` of size `0` is accepted and renders exactly like one
with no size: `if self.size:` tests truthiness, and `0` is falsy. -/
theorem array_size_zero (t : SQLType) :
    arraySQLInit t (some 0) = .ok (.ArraySQL t (some 0)) ∧
    (SQLType.ArraySQL t (some 0)).to_sql = t.to_sql ++ "[]" ∧
    (SQLType.ArraySQL t (some 0)).to_sql = (SQLType.ArraySQL t none).to_sql := by
  refine ⟨rfl, ?_, ?_⟩ <;> simp [SQLType.to_sql]

/-- C10: with no precision, an explicit scale is stored (making the instance
structurally unequal to a default-constructed Decimal, and its serialized
dict different), yet `to_sql` ignores it: both render `NUMERIC`. -/
theorem decimal_scale_without_precision (s : Int) :
    decimalSQLInit none (some s) = .ok (.DecimalSQL none (some s)) ∧
    pyEq (toObj (.DecimalSQL none (some s))) (toObj (.DecimalSQL none none)) =
      false ∧
    SQLType.to_dict (.DecimalSQL none (some s)) ≠
      SQLType.to_dict (.DecimalSQL none none) ∧
    (SQLType.DecimalSQL none (some s)).to_sql = "NUMERIC" ∧
    (SQLType.DecimalSQL none none).to_sql = "NUMERIC" := by
  refine ⟨rfl, ?_, ?_, rfl, rfl⟩
  · simp [toObj, SQLType.clsName, SQLType.instDict, pyEq, dictIncl,
      lookupBeq, optIntVal]
  · simp [SQLType.to_dict, SQLType.instDict, optIntVal]
